import Mathlib

/-!
# Verification of the untun-mcp tunnel registry and process management

Shallow embedding of the tunnel manager's core logic:
* `src/lib/tunnels.ts` — the registry (`activeTunnels` map) with `saveTunnels` /
  `loadTunnels` persistence;
* `src/lib/processes.ts` — `killTunnelProcesses` (bulk reaper) and
  `closeSpecificTunnel` (tree killer);
* `src/index.ts` — the `stop_tunnel` and `list_tunnels` tool handlers.

The operating system's process table is modelled as a list of process entries
(pid, parent pid, user, command line).  Shell pipelines of the form
`ps aux | grep P | grep -v grep` are modelled as filtering the table by
substring containment on the command line, excluding commands that themselves
contain "grep".  `kill -SIG pid` is modelled by recording the targeted process
together with the signal; the claims under study are about *which* processes
are signalled, not about delivery outcomes.

JavaScript `Date` serialization: `created.toISOString()` followed by
`new Date(isoString)` is an exact round trip at millisecond precision, and the
ISO-8601 rendering is injective on timestamps.  The ISO string is therefore
modelled by the millisecond timestamp it denotes (`ISO8601` below).
-/

/-- Does `pat` occur as a contiguous run inside the character list? -/
def containsList (pat : List Char) : List Char → Bool
  | [] => pat.isEmpty
  | c :: rest => pat.isPrefixOf (c :: rest) || containsList pat rest

/-- Substring containment: `grep`/`String.includes` on command lines. -/
def containsStr (s pat : String) : Bool :=
  containsList pat.data s.data

/-- One row of the operating system's process table. -/
structure Proc where
  pid : Nat
  ppid : Nat
  user : String
  command : String
deriving DecidableEq, Repr

/-- The process table: ground truth the Process Inspector queries. -/
abbrev ProcTable := List Proc

/-- A process with `pid` is alive iff the table has a row for it (`ps -p pid`). -/
def isAlive (table : ProcTable) (pid : Nat) : Bool :=
  table.any (fun p => p.pid == pid)

/-- Signals sent by the terminator: graceful TERM, forceful KILL. -/
inductive Signal where
  | term
  | kill
deriving DecidableEq, Repr

/-- One termination attempt: which signal was sent to which process-table row. -/
structure SigAction where
  sig : Signal
  proc : Proc
deriving DecidableEq, Repr

/-- An ISO-8601 timestamp string, modelled by the millisecond timestamp it
denotes (the rendering is injective and `new Date` inverts it exactly). -/
structure ISO8601 where
  ms : Int
deriving DecidableEq, Repr

/-- `date.toISOString()`. -/
def toISOStringOf (ms : Int) : ISO8601 := ⟨ms⟩

/-- `new Date(isoString)`, as a millisecond timestamp. -/
def dateOfISO (s : ISO8601) : Int := s.ms

/-- The in-memory-only close capability stored on a record
(`info.tunnel`); it is reconstructed, never persisted.  The variants record
which code path built the closure and what it captured. -/
inductive CloseHandle where
  /-- built by `start_tunnel` around the spawned child process -/
  | fromStart (url : String)
  /-- rebuilt by `loadTunnels` from the persisted fields -/
  | fromLoad (name url : String) (pid : Option Nat) (isRemote : Bool)
  /-- dummy handle attached to an auto-detected tunnel by `list_tunnels` -/
  | fromDetect (url : String) (pid : Nat)
deriving DecidableEq, Repr

/-- `TunnelInfo` (src/lib/types.ts): one in-memory registry record.
`created` is the `Date` as a millisecond timestamp; optional TS fields are
`Option`s, and the optional booleans `isRemote` / `isDetected` are `Bool`
(absent ⇒ falsy ⇒ `false`). -/
structure TunnelInfo where
  url : String
  publicUrl : Option String
  created : Int
  pid : Option Nat
  hostId : String
  isRemote : Bool
  isDetected : Bool
  tunnel : CloseHandle
deriving DecidableEq, Repr

/-- The `activeTunnels` map: name-keyed, insertion-ordered (JS `Map`). -/
abbrev Registry := List (String × TunnelInfo)

/-- `activeTunnels.has(name)`. -/
def hasName (reg : Registry) (name : String) : Bool :=
  reg.any (fun p => p.1 == name)

/-- `activeTunnels.get(name)`. -/
def lookupReg (reg : Registry) (name : String) : Option TunnelInfo :=
  (reg.find? (fun p => p.1 == name)).map Prod.snd

/-- `activeTunnels.set(name, info)`: JS `Map.set` updates an existing key in
place (keeping its position) and otherwise appends. -/
def setName (reg : Registry) (name : String) (info : TunnelInfo) : Registry :=
  if hasName reg name then
    reg.map (fun p => if p.1 == name then (name, info) else p)
  else
    reg ++ [(name, info)]

/-- `activeTunnels.delete(name)`. -/
def deleteName (reg : Registry) (name : String) : Registry :=
  reg.filter (fun p => ¬ p.1 == name)

/-- The shape `saveTunnels` writes for one record: `name, url, publicUrl,
created (ISO string), pid, hostId` — and nothing else; in particular the
`tunnel` close handle has no counterpart here. -/
structure PersistedTunnel where
  name : String
  url : String
  publicUrl : Option String
  created : ISO8601
  pid : Option Nat
  hostId : String
deriving DecidableEq, Repr

/-- The per-entry serializer inside `saveTunnels`: reads only
`url, publicUrl, created, pid` off the record and stamps `hostId` with the
*current* hostname (`os.hostname()`), ignoring the record's own `hostId`. -/
def persistedOf (host : String) (p : String × TunnelInfo) : PersistedTunnel :=
  { name := p.1
    url := p.2.url
    publicUrl := p.2.publicUrl
    created := toISOStringOf p.2.created
    pid := p.2.pid
    hostId := host }

/-- `saveTunnels` (src/lib/tunnels.ts:13): serializes every entry of the map,
in order, via `persistedOf`.  (The `fs.writeFileSync` and its catch-and-log
error path do not affect the produced data.) -/
def saveTunnels (host : String) (reg : Registry) : List PersistedTunnel :=
  reg.map (persistedOf host)

/-- What `loadTunnels` finds on disk.  `missing` — `fs.existsSync` is false;
`unparsable` — `JSON.parse` throws; `parsed es` — a JSON array whose elements
are either well-formed records (`some e`) or values on which the per-entry
field accesses throw (`none`, e.g. `null` in the array). -/
inductive FileContent where
  | missing
  | unparsable
  | parsed (entries : List (Option PersistedTunnel))
deriving DecidableEq, Repr

/-- The record `loadTunnels` reconstructs from one persisted entry:
`isRemote` is `hostId !== os.hostname()`, and the close handle is rebuilt
from the captured `name`/`url`/`pid`/`isRemote`. -/
def recordOfPersisted (host : String) (e : PersistedTunnel) : TunnelInfo :=
  { url := e.url
    publicUrl := e.publicUrl
    created := dateOfISO e.created
    pid := e.pid
    hostId := e.hostId
    isRemote := e.hostId != host
    isDetected := false
    tunnel := .fromLoad e.name e.url e.pid (e.hostId != host) }

/-- The `tunnelsData.forEach` body of `loadTunnels`: entries already present
by name are skipped; on a malformed element the field access throws, the
outer catch fires, and the entries set so far remain in the map. -/
def loadEntries (host : String) :
    List (Option PersistedTunnel) → Registry → Registry
  | [], reg => reg
  | none :: _, reg => reg
  | some e :: rest, reg =>
    if hasName reg e.name then loadEntries host rest reg
    else loadEntries host rest (setName reg e.name (recordOfPersisted host e))

/-- `loadTunnels` (src/lib/tunnels.ts:43): missing file ⇒ early return;
unparsable file ⇒ `JSON.parse` throws before any mutation and the catch
swallows it; otherwise merge the parsed entries into the current map. -/
def loadTunnels (host : String) (file : FileContent) (reg : Registry) :
    Registry :=
  match file with
  | .missing => reg
  | .unparsable => reg
  | .parsed es => loadEntries host es reg

/-! ## src/lib/processes.ts — Process Inspector, Bulk Reaper, Tree Killer -/

/-- `getCloudflaredDetails`: `ps aux | grep cloudflared | grep -v grep`,
parsed back into rows.  Modelled as filtering the table by command-line
containment (the pipeline's own `grep` rows are excluded by `grep -v grep`). -/
def getCloudflaredDetails (table : ProcTable) : List Proc :=
  table.filter (fun p =>
    containsStr p.command "cloudflared" && !containsStr p.command "grep")

/-- `findPidsByPattern pattern`: `ps aux | grep "pattern" | grep -v grep |
awk '{print $2}'`.  The source keeps only the pid column; we keep the whole
row so theorems can inspect the command line of each targeted pid. -/
def findPidsByPattern (table : ProcTable) (pattern : String) : List Proc :=
  table.filter (fun p =>
    containsStr p.command pattern && !containsStr p.command "grep")

/-- The filter in `killTunnelProcesses` selecting the cloudflared processes
that untun launched: `node-untun` in the path, or `--url http` in the
command, or the case-insensitive match `tunnel --url` — and never a process
whose command line carries the `--token` authentication marker. -/
def isUntunCloudflared (command : String) : Bool :=
  (containsStr command "node-untun" || containsStr command "--url http" ||
      containsStr command.toLower "tunnel --url") &&
    !containsStr command "--token"

/-- The processes targeted by each phase of `killTunnelProcesses`.  The
snapshots of the process table are indexed by when they are taken:
`snap 0` — initial cloudflared enumeration; `snap 1` — re-enumeration after
`sleep 0.5`; `snap 2` — `untun tunnel` enumeration; `snap 3` —
re-enumeration after `sleep 0.3`; `snap 4` — final check. -/
structure BulkResult where
  /-- untun-managed cloudflared processes sent SIGTERM -/
  cfTerm : List Proc
  /-- those of them still present after the grace period, sent SIGKILL -/
  cfKill : List Proc
  /-- `untun tunnel` launcher processes sent SIGTERM -/
  untunTerm : List Proc
  /-- launcher processes still matching after the grace period, sent SIGKILL -/
  untunKill : List Proc
  /-- survivors reported by the final check (warned about, not signalled) -/
  finalCheck : List Proc
deriving DecidableEq, Repr

/-- `killTunnelProcesses` (src/lib/processes.ts:711): graceful pass over the
untun-managed cloudflared processes, escalation for the ones still alive,
the separate launcher-signature kill, and the final check. -/
def killTunnelProcesses (snap : Nat → ProcTable) : BulkResult :=
  let targets := (getCloudflaredDetails (snap 0)).filter
    (fun p => isUntunCloudflared p.command)
  let remaining :=
    if targets.isEmpty then []
    else targets.filter
      (fun p => (getCloudflaredDetails (snap 1)).any (fun q => q.pid == p.pid))
  let untunT := findPidsByPattern (snap 2) "untun tunnel"
  let untunK :=
    if untunT.isEmpty then [] else findPidsByPattern (snap 3) "untun tunnel"
  let finalT := (getCloudflaredDetails (snap 4)).filter
    (fun p => isUntunCloudflared p.command)
  { cfTerm := targets, cfKill := remaining,
    untunTerm := untunT, untunKill := untunK, finalCheck := finalT }

/-- Every signal `killTunnelProcesses` sends, in order. -/
def BulkResult.actions (r : BulkResult) : List SigAction :=
  r.cfTerm.map (fun p => ⟨.term, p⟩) ++ r.cfKill.map (fun p => ⟨.kill, p⟩) ++
    r.untunTerm.map (fun p => ⟨.term, p⟩) ++
    r.untunKill.map (fun p => ⟨.kill, p⟩)

/-- The human-readable transcript returned by `killTunnelProcesses`
(abbreviated to the informative lines; kill attempts are modelled as accepted
by the operating system). -/
def bulkTranscript (r : BulkResult) : List String :=
  (if r.cfTerm.isEmpty then
      ["No untun-managed cloudflared processes found to kill"]
    else
      ("Found " ++ toString r.cfTerm.length ++
          " untun-managed cloudflared processes") ::
        r.cfTerm.map (fun p =>
          "Kill TERM PID " ++ toString p.pid ++ ": Success") ++
        r.cfKill.map (fun p =>
          "Kill KILL PID " ++ toString p.pid ++ ": Success")) ++
  (if r.untunTerm.isEmpty then ["No untun processes found"]
    else
      ("Found " ++ toString r.untunTerm.length ++ " untun tunnel processes") ::
        r.untunTerm.map (fun p =>
          "Kill TERM untun PID " ++ toString p.pid ++ ": Success") ++
        r.untunKill.map (fun p =>
          "Kill KILL untun PID " ++ toString p.pid ++ ": Success")) ++
  (if r.finalCheck.isEmpty then
      ["All untun cloudflared processes successfully terminated"]
    else
      ["WARNING: " ++ toString r.finalCheck.length ++
          " untun cloudflared processes still running"])

/-- The regex `^https?:\/\/` replaced by the empty string: the tree killer's
"clean the URL for matching (remove protocol, only use host:port)". -/
def stripScheme (url : String) : String :=
  if List.isPrefixOf "https://".data url.data then ⟨url.data.drop 8⟩
  else if List.isPrefixOf "http://".data url.data then ⟨url.data.drop 7⟩
  else url

/-- The URL-fallback path of `closeSpecificTunnel` (no usable pid):
`ps aux | grep cloudflared | grep "<cleanUrl>" | grep -v grep`, then a TERM
for every match. -/
def closeByUrl (table : ProcTable) (url : String) : List SigAction :=
  let cleanUrl := stripScheme url
  (table.filter (fun pr =>
      containsStr pr.command "cloudflared" && containsStr pr.command cleanUrl &&
        !containsStr pr.command "grep")).map
    (fun pr => ⟨.term, pr⟩)

/-- The pid path of `closeSpecificTunnel`: TERM the stored pid whenever
`ps -p pid` finds a live row (no inspection of that row's command line),
then TERM every direct child (`pgrep -P pid`) whose own command line names
`cloudflared`. -/
def closeByPid (table : ProcTable) (p : Nat) : List SigAction :=
  let mainKill : List SigAction :=
    match table.find? (fun pr => pr.pid == p) with
    | some pr => [⟨.term, pr⟩]
    | none => []
  let children := table.filter (fun pr => pr.ppid == p)
  mainKill ++
    (children.filter (fun pr => containsStr pr.command "cloudflared")).map
      (fun pr => ⟨.term, pr⟩)

/-- `closeSpecificTunnel` (src/lib/processes.ts:841), as the list of signals
it issues.  `if (pid)` is a JS truthiness test, so an absent pid — and a
pid of `0` — takes the URL-fallback branch. -/
def closeSpecificTunnel (table : ProcTable) (url : String) (pid : Option Nat) :
    List SigAction :=
  match pid with
  | some p => if p == 0 then closeByUrl table url else closeByPid table p
  | none => closeByUrl table url

/-! ## src/index.ts — the `stop_tunnel` tool handler -/

/-- Everything one `stop_tunnel` call produces: the reply text, the registry
it leaves behind, the signals issued through `closeSpecificTunnel` (named
branch), and the Bulk Reaper run (no-name branch; `none` when the reaper was
never invoked). -/
structure StopResult where
  reply : String
  registry : Registry
  closeCalls : List SigAction
  bulk : Option BulkResult
deriving Repr

/-- The `stop_tunnel` handler (src/index.ts:260).  `snap` are the process
table snapshots passed through to the process layer (`snap 0` is the table
`closeSpecificTunnel` sees).  Named branch: the `has`/`get` pair on the JS
map is one `lookupReg` here; a remote record short-circuits before any
process call; otherwise `closeSpecificTunnel` runs when `tunnelInfo?.url` is
truthy (non-empty), the record is deleted, and the registry saved.  No-name
branch: `killTunnelProcesses()` runs first, then the local-record count
decides the reply; with zero local records the handler returns before any
registry mutation, and the reply does not carry the reaper's transcript. -/
def stopTunnelTool (snap : Nat → ProcTable) (reg : Registry)
    (name : Option String) : StopResult :=
  match name with
  | some n =>
    match lookupReg reg n with
    | none =>
      { reply := "No active tunnel found with name \"" ++ n ++ "\"."
        registry := reg, closeCalls := [], bulk := none }
    | some info =>
      if info.isRemote then
        { reply := "Tunnel \"" ++ n ++ "\" is running on a different host (" ++
            info.hostId ++
            ") and cannot be stopped from this instance. Please stop it from the originating host."
          registry := reg, closeCalls := [], bulk := none }
      else
        let calls :=
          if info.url != "" then closeSpecificTunnel (snap 0) info.url info.pid
          else []
        { reply := "Tunnel \"" ++ n ++ "\" stopped.\n\nDetails:\n" ++
            String.intercalate "\n"
              (calls.map (fun a =>
                "✓ Killed process " ++ toString a.proc.pid ++ " with TERM"))
          registry := deleteName reg n, closeCalls := calls, bulk := none }
  | none =>
    let kr := killTunnelProcesses snap
    let locals := reg.filter (fun p => !p.2.isRemote)
    if locals.length == 0 then
      { reply := "No local tunnels to stop. Remote tunnels are not affected."
        registry := reg, closeCalls := [], bulk := some kr }
    else
      { reply := "Stopped " ++ toString locals.length ++
          " local tunnels. Remote tunnels were not affected.\n\nDetails:\n" ++
          String.intercalate "\n" (bulkTranscript kr)
        registry := locals.foldl (fun r p => deleteName r p.1) reg
        closeCalls := [], bulk := some kr }

/-! ## src/index.ts — `list_tunnels` auto-detection and reconciliation -/

/-- `https?:\/\/[^\s]+` anchored at the current position: the maximal
non-whitespace run, provided it starts with a scheme and is longer than it. -/
def urlFromHere (l : List Char) : Option String :=
  let run := l.takeWhile (fun c => !c.isWhitespace)
  if List.isPrefixOf "https://".data run ∧ 8 < run.length then some ⟨run⟩
  else if List.isPrefixOf "http://".data run ∧ 7 < run.length then some ⟨run⟩
  else none

/-- Scan for the first position where `tok` is followed by at least one
whitespace character and then a URL: the regex `tok\s+(https?:\/\/[^\s]+)`.
(The source regexes carry `/i`; commands are matched as written here, which
is exact for the all-lowercase tokens untun itself emits.) -/
def findTokenUrl (tok : List Char) : List Char → Option String
  | [] => none
  | c :: rest =>
    match
      (if List.isPrefixOf tok (c :: rest) then
        let after := (c :: rest).drop tok.length
        if (after.takeWhile Char.isWhitespace).isEmpty then none
        else urlFromHere (after.dropWhile Char.isWhitespace)
      else none) with
    | some u => some u
    | none => findTokenUrl tok rest

/-- `--url\s+(https?:\/\/[^\s]+)`: the exposed local address on a
cloudflared command line. -/
def extractLocalUrl (cmd : String) : Option String :=
  findTokenUrl "--url".data cmd.data

/-- `[a-z0-9-]` (with `/i`): one character of a trycloudflare host name. -/
def isHostChar (c : Char) : Bool :=
  c.isAlpha || c.isDigit || c == '-'

/-- `https?:\/\/[a-z0-9-]+\.trycloudflare\.com` anchored here. -/
def publicUrlFromHere (l : List Char) : Option String :=
  let go : List Char → List Char → Option String := fun scheme l2 =>
    let host := l2.takeWhile isHostChar
    if host.isEmpty then none
    else if List.isPrefixOf ".trycloudflare.com".data (l2.drop host.length) then
      some ⟨scheme ++ host ++ ".trycloudflare.com".data⟩
    else none
  if List.isPrefixOf "https://".data l then go "https://".data (l.drop 8)
  else if List.isPrefixOf "http://".data l then go "http://".data (l.drop 7)
  else none

/-- First trycloudflare public URL anywhere on the command line. -/
def findPublicUrl : List Char → Option String
  | [] => none
  | c :: rest =>
    match publicUrlFromHere (c :: rest) with
    | some u => some u
    | none => findPublicUrl rest

/-- The public-address capture on a cloudflared command line. -/
def extractPublicUrl (cmd : String) : Option String :=
  findPublicUrl cmd.data

/-- `untun\s+tunnel\s+(https?:\/\/[^\s]+)`: the local address on an
`untun tunnel` launcher command line. -/
def findUntunUrl : List Char → Option String
  | [] => none
  | c :: rest =>
    match
      (if List.isPrefixOf "untun".data (c :: rest) then
        let a1 := (c :: rest).drop 5
        if (a1.takeWhile Char.isWhitespace).isEmpty then none
        else
          let a2 := a1.dropWhile Char.isWhitespace
          if List.isPrefixOf "tunnel".data a2 then
            let a3 := a2.drop 6
            if (a3.takeWhile Char.isWhitespace).isEmpty then none
            else urlFromHere (a3.dropWhile Char.isWhitespace)
          else none
      else none) with
    | some u => some u
    | none => findUntunUrl rest

/-- One tunnel synthesized by the detection scan in `list_tunnels` (the
`detectedTunnels` array elements; `created`/`hostId` are stamped when the
record is absorbed into the registry). -/
structure Detected where
  name : String
  url : String
  publicUrl : Option String
  pid : Nat
deriving DecidableEq, Repr

/-- One iteration of the cloudflared detection loop: a row whose command
line carries `--url <local URL>` is pushed under the name
`auto-detected-${detectedTunnels.length + 1}`. -/
def cfDetectStep (acc : List Detected) (p : Proc) : List Detected :=
  match extractLocalUrl p.command with
  | some localUrl =>
    acc ++ [{ name := "auto-detected-" ++ toString (acc.length + 1)
              url := localUrl
              publicUrl := extractPublicUrl p.command
              pid := p.pid }]
  | none => acc

/-- The cloudflared detection loop over
`ps aux | grep cloudflared | grep -v grep`. -/
def detectCloudflared (table : ProcTable) : List Detected :=
  (table.filter (fun p =>
      containsStr p.command "cloudflared" && !containsStr p.command "grep")).foldl
    cfDetectStep []

/-- One iteration of the untun-launcher detection loop: a row matching
`untun tunnel <URL>` is pushed unless a detected tunnel with that URL is
already in the array. -/
def untunDetectStep (acc : List Detected) (p : Proc) : List Detected :=
  match findUntunUrl p.command.data with
  | some localUrl =>
    if acc.any (fun t => t.url == localUrl) then acc
    else
      acc ++ [{ name := "auto-detected-" ++ toString (acc.length + 1)
                url := localUrl
                publicUrl := none
                pid := p.pid }]
  | none => acc

/-- The untun-launcher detection loop, continuing the same array, over
`ps aux | grep 'untun tunnel' | grep -v grep`. -/
def detectUntun (table : ProcTable) (acc0 : List Detected) : List Detected :=
  (table.filter (fun p =>
      containsStr p.command "untun tunnel" && !containsStr p.command "grep")).foldl
    untunDetectStep acc0

/-- The full `detectedTunnels` array built by one `list_tunnels` call. -/
def detectTunnels (table : ProcTable) : List Detected :=
  detectUntun table (detectCloudflared table)

/-- The registry record built for a detected tunnel (`created := new Date()`
at detection time, current hostname, `isDetected := true`, dummy handle). -/
def recordOfDetected (host : String) (now : Int) (t : Detected) : TunnelInfo :=
  { url := t.url
    publicUrl := t.publicUrl
    created := now
    pid := some t.pid
    hostId := host
    isRemote := false
    isDetected := true
    tunnel := .fromDetect t.url t.pid }

/-- Backfill: give the first record whose `url` matches a public URL. -/
def backfillPublicUrl (url pub : String) : Registry → Registry
  | [] => []
  | p :: rest =>
    if p.2.url == url then (p.1, { p.2 with publicUrl := some pub }) :: rest
    else p :: backfillPublicUrl url pub rest

/-- The `detectedTunnels.forEach` body: if no registry record has the
detected URL, `activeTunnels.set(tunnel.name, …)` — which *overwrites* any
record that happens to carry that name; otherwise, when the first record
with that URL still lacks a public URL and the detected one has it,
backfill it in place. -/
def absorbDetected (host : String) (now : Int) (reg : Registry)
    (t : Detected) : Registry :=
  match reg.find? (fun p => p.2.url == t.url) with
  | none => setName reg t.name (recordOfDetected host now t)
  | some ex =>
    match t.publicUrl with
    | some pub => if ex.2.publicUrl == none then backfillPublicUrl t.url pub reg
                  else reg
    | none => reg

/-- The reconciliation portion of the `list_tunnels` handler: reload the
registry from the file, scan the process table, absorb every detected
tunnel, save.  (When nothing matches, the detected list is empty and the
fold is the identity, matching the `counts > 0` guard in the source.) -/
def listTunnelsUpdate (host : String) (now : Int) (file : FileContent)
    (table : ProcTable) (reg : Registry) : Registry :=
  (detectTunnels table).foldl (absorbDetected host now)
    (loadTunnels host file reg)

/-! ## Concrete instances used by counterexamples and witnesses -/

/-- A live process whose command line has nothing to do with tunnelling
(it could occupy a stale, recycled pid). -/
def vimProc : Proc := ⟨42, 1, "u", "vim notes.txt"⟩

/-- A process table holding only the unrelated process. -/
def c1Table : ProcTable := [vimProc]

/-- A record as created by `start_tunnel` on this host. -/
def localInfo : TunnelInfo :=
  { url := "http://localhost:3000", publicUrl := none, created := 1000
    pid := some 41, hostId := "thishost", isRemote := false
    isDetected := false, tunnel := .fromStart "http://localhost:3000" }

/-- A record owned by another host, as `loadTunnels` reconstructs it. -/
def remoteInfo : TunnelInfo :=
  { url := "http://localhost:3000"
    publicUrl := some "https://web-1.trycloudflare.com", created := 500
    pid := some 99, hostId := "otherhost", isRemote := true
    isDetected := false
    tunnel := .fromLoad "web" "http://localhost:3000" (some 99) true }

/-- A persisted entry that shares the name `web` with an in-memory record
but carries a different local address. -/
def c4FileRec : PersistedTunnel :=
  { name := "web", url := "http://localhost:4000", publicUrl := none
    created := ⟨2000⟩, pid := some 77, hostId := "thishost" }

/-- An in-memory registry with two local records, `web` and `api`. -/
def c4Reg : Registry := [("web", localInfo), ("api", localInfo)]

/-- An auto-detected record persisted by an earlier `list_tunnels`
invocation, exposing `localhost:3000`. -/
def c7OldRec : TunnelInfo :=
  { url := "http://localhost:3000"
    publicUrl := some "https://old-1.trycloudflare.com", created := 0
    pid := some 50, hostId := "thishost", isRemote := false
    isDetected := true, tunnel := .fromDetect "http://localhost:3000" 50 }

/-- A process table with one live cloudflared process exposing
`localhost:4000`, matching no registry record. -/
def c7Table : ProcTable :=
  [⟨7, 1, "u", "cloudflared tunnel --url http://localhost:4000"⟩]

/-- The registry already holding a record named `auto-detected-1`. -/
def c7Reg : Registry := [("auto-detected-1", c7OldRec)]

/-- The tunnel the scan over `c7Table` detects. -/
def c7Detected : Detected :=
  { name := "auto-detected-1", url := "http://localhost:4000"
    publicUrl := none, pid := 7 }

/-- A cloudflared process using a long-lived authentication token. -/
def tokenProc : Proc :=
  ⟨50, 1, "u", "cloudflared tunnel --url http://localhost:3000 --token abc"⟩

/-- An untun-managed cloudflared process. -/
def cfProc : Proc := ⟨43, 41, "u", "cloudflared tunnel --url http://localhost:3000"⟩

/-- Constant process-table snapshots holding an untun-managed cloudflared
process and a token-bearing one. -/
def bulkSnap : Nat → ProcTable := fun _ => [cfProc, tokenProc]

/-- The generated-name discipline of the detection scan: the record at
position `i` of the detected array is named `auto-detected-(i+1)` — so the
names are pairwise distinct within one invocation. -/
def autoNamed (d : List Detected) : Prop :=
  ∀ i (h : i < d.length), (d.get ⟨i, h⟩).name = "auto-detected-" ++ toString (i + 1)

/-! ## Helper lemmas -/

lemma lookup_of_hasName_false {reg : Registry} {n : String}
    (h : hasName reg n = false) : lookupReg reg n = none := by
  simp only [hasName, List.any_eq_false] at h
  simp only [lookupReg, Option.map_eq_none']
  rw [List.find?_eq_none]
  exact h

lemma hasName_append {reg : Registry} {x : String × TunnelInfo} {n : String} :
    hasName (reg ++ [x]) n = (hasName reg n || x.1 == n) := by
  simp [hasName, List.any_append]

lemma lookupReg_append_left :
    ∀ {reg : Registry} (ext : Registry) {n : String},
      hasName reg n = true → lookupReg (reg ++ ext) n = lookupReg reg n
  | [], _, _, h => by simp [hasName] at h
  | p :: reg, ext, n, h => by
    cases hp : (p.1 == n) with
    | true => simp [lookupReg, List.find?, hp]
    | false =>
      have h' : hasName reg n = true := by
        simp only [hasName, List.any_cons, hp, Bool.false_or] at h
        exact h
      simp only [List.cons_append, lookupReg, List.find?, hp]
      exact lookupReg_append_left ext h'

lemma loadEntries_of_fresh_nodup (host : String) :
    ∀ (ps : List PersistedTunnel) (acc : Registry),
      (∀ e ∈ ps, hasName acc e.name = false) →
      (ps.map PersistedTunnel.name).Nodup →
      loadEntries host (ps.map some) acc =
        acc ++ ps.map (fun e => (e.name, recordOfPersisted host e))
  | [], acc, _, _ => by simp [loadEntries]
  | e :: ps, acc, hfresh, hnd => by
    have he : hasName acc e.name = false := hfresh e (List.mem_cons_self e ps)
    have hnotin : e.name ∉ ps.map PersistedTunnel.name :=
      (List.nodup_cons.mp hnd).1
    simp only [List.map_cons, loadEntries, he, Bool.false_eq_true, if_false]
    rw [setName, he]
    simp only [Bool.false_eq_true, if_false]
    rw [loadEntries_of_fresh_nodup host ps
      (acc ++ [(e.name, recordOfPersisted host e)])
      (by
        intro e' he'
        rw [hasName_append, hfresh e' (List.mem_cons_of_mem e he'), Bool.false_or]
        simp only [beq_eq_false_iff_ne, ne_eq]
        intro hEq
        exact hnotin (hEq ▸ List.mem_map_of_mem PersistedTunnel.name he'))
      (List.nodup_cons.mp hnd).2]
    simp

lemma loadEntries_extends (host : String) :
    ∀ (es : List (Option PersistedTunnel)) (reg : Registry),
      ∃ ext, loadEntries host es reg = reg ++ ext ∧
        ∀ q ∈ ext, hasName reg q.1 = false
  | [], reg => ⟨[], by simp [loadEntries], by simp⟩
  | none :: _, reg => ⟨[], by simp [loadEntries], by simp⟩
  | some e :: rest, reg => by
    by_cases h : hasName reg e.name = true
    · obtain ⟨ext, heq, hfr⟩ := loadEntries_extends host rest reg
      exact ⟨ext, by simp [loadEntries, h, heq], hfr⟩
    · rw [Bool.not_eq_true] at h
      obtain ⟨ext, heq, hfr⟩ :=
        loadEntries_extends host rest
          (reg ++ [(e.name, recordOfPersisted host e)])
      refine ⟨(e.name, recordOfPersisted host e) :: ext, ?_, ?_⟩
      · simp only [loadEntries, h, Bool.false_eq_true, if_false, setName]
        rw [heq, List.append_assoc]
        rfl
      · intro q hq
        rcases List.mem_cons.mp hq with rfl | hq'
        · exact h
        · have := hfr q hq'
          rw [hasName_append] at this
          exact (Bool.or_eq_false_iff.mp this).1

lemma token_not_untunCf {c : String} (h : containsStr c "--token" = true) :
    isUntunCloudflared c = false := by
  simp only [isUntunCloudflared, h]
  simp

lemma mem_closeByUrl {table : ProcTable} {url : String} {a : SigAction}
    (ha : a ∈ closeByUrl table url) :
    containsStr a.proc.command "cloudflared" = true := by
  simp only [closeByUrl, List.mem_map, List.mem_filter] at ha
  obtain ⟨pr, ⟨-, hp⟩, rfl⟩ := ha
  simp only [Bool.and_eq_true] at hp
  exact hp.1.1

lemma autoNamed_push {acc : List Detected} {d : Detected} (hacc : autoNamed acc)
    (hd : d.name = "auto-detected-" ++ toString (acc.length + 1)) :
    autoNamed (acc ++ [d]) := by
  intro i h
  rw [List.get_eq_getElem]
  rcases Nat.lt_or_ge i acc.length with hi | hi
  · rw [List.getElem_append_left hi]
    exact hacc i hi
  · have hlen : i = acc.length := by
      simp only [List.length_append, List.length_singleton] at h
      omega
    subst hlen
    rw [List.getElem_append_right (Nat.le_refl _)]
    simpa using hd

lemma autoNamed_foldl_cf :
    ∀ (l : List Proc) (acc : List Detected), autoNamed acc →
      autoNamed (l.foldl cfDetectStep acc)
  | [], _, h => h
  | p :: l, acc, h => by
    rw [List.foldl_cons]
    refine autoNamed_foldl_cf l _ ?_
    unfold cfDetectStep
    cases extractLocalUrl p.command with
    | none => exact h
    | some u => exact autoNamed_push h rfl

lemma autoNamed_foldl_untun :
    ∀ (l : List Proc) (acc : List Detected), autoNamed acc →
      autoNamed (l.foldl untunDetectStep acc)
  | [], _, h => h
  | p :: l, acc, h => by
    rw [List.foldl_cons]
    refine autoNamed_foldl_untun l _ ?_
    unfold untunDetectStep
    cases findUntunUrl p.command.data with
    | none => exact h
    | some u =>
      by_cases hex : acc.any (fun t => t.url == u) = true
      · simpa [hex] using h
      · rw [Bool.not_eq_true] at hex
        simpa [hex] using autoNamed_push h rfl

/-! ## Claims -/

/-- Claim C1, counterexample.  The tree killer is invoked with a stored
`processId` (42) while the process table shows pid 42 running an unrelated
program (`vim notes.txt`).  `closeSpecificTunnel` nevertheless sends it a
TERM signal: the stored parent pid is signalled purely because a live
process with that pid exists, without any check that its command line
matches the tunnel signature (`cloudflared` or the untun launcher). -/
theorem C1_counterexample :
    closeSpecificTunnel c1Table "http://localhost:3000" (some 42) =
      [⟨Signal.term, vimProc⟩] ∧
    containsStr vimProc.command "cloudflared" = false ∧
    containsStr vimProc.command "untun" = false := by decide

/-- Claim C1, amended.  Every signal issued by `closeSpecificTunnel` goes
either to the supplied parent pid itself — which is signalled whenever a
live process with that pid exists, with no command-line check — or to a
process whose command line contains `cloudflared` (the child pass and the
URL-fallback pass both verify this). -/
theorem C1_amended (table : ProcTable) (url : String) (pid : Option Nat)
    (a : SigAction) (ha : a ∈ closeSpecificTunnel table url pid) :
    pid = some a.proc.pid ∨ containsStr a.proc.command "cloudflared" = true := by
  match pid with
  | none => exact Or.inr (mem_closeByUrl ha)
  | some p =>
    simp only [closeSpecificTunnel] at ha
    split at ha
    · exact Or.inr (mem_closeByUrl ha)
    · simp only [closeByPid, List.mem_append] at ha
      rcases ha with hmain | hchild
      · left
        rcases hfind : table.find? (fun pr => pr.pid == p) with _ | pr
        · rw [hfind] at hmain
          exact absurd hmain (List.not_mem_nil a)
        · rw [hfind] at hmain
          have hpid := List.find?_some hfind
          simp only [beq_iff_eq] at hpid
          simp only [List.mem_singleton] at hmain
          subst hmain
          simp [hpid]
      · right
        simp only [List.mem_map, List.mem_filter] at hchild
        obtain ⟨pr, ⟨-, hp⟩, rfl⟩ := hchild
        exact hp

/-- Witness for C1 (amended), at the concrete table of the counterexample. -/
theorem C1_amended_witness :
    some 42 = some vimProc.pid ∨
      containsStr vimProc.command "cloudflared" = true :=
  C1_amended c1Table "http://localhost:3000" (some 42) ⟨.term, vimProc⟩
    (by decide)

/-- Claim C2.  For a registry record with `isRemote = true`, `stop_tunnel`
with that record's name replies with the refusal message naming the owning
host, never reaches `closeSpecificTunnel` or the bulk reaper, and leaves
the registry — and the record itself — unchanged. -/
theorem C2_remote_stop_refused (snap : Nat → ProcTable) (reg : Registry)
    (n : String) (info : TunnelInfo) (hget : lookupReg reg n = some info)
    (hrem : info.isRemote = true) :
    (stopTunnelTool snap reg (some n)).reply =
      "Tunnel \"" ++ n ++ "\" is running on a different host (" ++
        info.hostId ++
        ") and cannot be stopped from this instance. Please stop it from the originating host." ∧
    (stopTunnelTool snap reg (some n)).closeCalls = [] ∧
    (stopTunnelTool snap reg (some n)).bulk = none ∧
    (stopTunnelTool snap reg (some n)).registry = reg ∧
    lookupReg (stopTunnelTool snap reg (some n)).registry n = some info := by
  simp [stopTunnelTool, hget, hrem]

/-- Witness for C2: a remote record named `web` owned by `otherhost`. -/
theorem C2_remote_stop_refused_witness :
    (stopTunnelTool bulkSnap [("web", remoteInfo)] (some "web")).reply =
      "Tunnel \"" ++ "web" ++ "\" is running on a different host (" ++
        remoteInfo.hostId ++
        ") and cannot be stopped from this instance. Please stop it from the originating host." ∧
    (stopTunnelTool bulkSnap [("web", remoteInfo)] (some "web")).closeCalls = [] ∧
    (stopTunnelTool bulkSnap [("web", remoteInfo)] (some "web")).bulk = none ∧
    (stopTunnelTool bulkSnap [("web", remoteInfo)] (some "web")).registry =
      [("web", remoteInfo)] ∧
    lookupReg (stopTunnelTool bulkSnap [("web", remoteInfo)]
        (some "web")).registry "web" = some remoteInfo :=
  C2_remote_stop_refused bulkSnap [("web", remoteInfo)] "web" remoteInfo
    (by decide) (by decide)

/-- Claim C3.  Saving a registry (with pairwise-distinct names, the `Map`
key invariant) on host `saveHost` and re-loading the file into an empty map
on host `loadHost` reproduces every record's `name`, `url`, `publicUrl`,
`created` and `pid` exactly, and sets `isRemote = true` exactly when the
stored `hostId` — re-stamped to `saveHost` by the save — differs from the
loading machine's hostname. -/
theorem C3_save_load_roundTrip (saveHost loadHost : String) (reg : Registry)
    (hnd : (reg.map Prod.fst).Nodup) :
    List.Forall₂ (fun p q =>
        q.1 = p.1 ∧ q.2.url = p.2.url ∧ q.2.publicUrl = p.2.publicUrl ∧
        q.2.created = p.2.created ∧ q.2.pid = p.2.pid ∧
        (q.2.isRemote = true ↔ saveHost ≠ loadHost))
      reg
      (loadTunnels loadHost
        (.parsed ((saveTunnels saveHost reg).map some)) []) := by
  have key : loadTunnels loadHost
      (.parsed ((saveTunnels saveHost reg).map some)) [] =
      reg.map (fun p =>
        (p.1, recordOfPersisted loadHost (persistedOf saveHost p))) := by
    show loadEntries loadHost ((reg.map (persistedOf saveHost)).map some) [] = _
    rw [loadEntries_of_fresh_nodup loadHost (reg.map (persistedOf saveHost)) []
      (fun _ _ => rfl) (by rw [List.map_map]; exact hnd)]
    rw [List.nil_append, List.map_map]
    rfl
  rw [key, List.forall₂_map_right_iff]
  refine List.forall₂_same.mpr fun p _ => ⟨rfl, rfl, rfl, rfl, rfl, ?_⟩
  simp [recordOfPersisted, persistedOf, bne_iff_ne]

/-- Witness for C3: a two-record registry saved on `hostA`, loaded on
`hostB`. -/
theorem C3_save_load_roundTrip_witness :
    List.Forall₂ (fun p q =>
        q.1 = p.1 ∧ q.2.url = p.2.url ∧ q.2.publicUrl = p.2.publicUrl ∧
        q.2.created = p.2.created ∧ q.2.pid = p.2.pid ∧
        (q.2.isRemote = true ↔ "hostA" ≠ "hostB"))
      [("web", localInfo), ("api", remoteInfo)]
      (loadTunnels "hostB"
        (.parsed ((saveTunnels "hostA"
          [("web", localInfo), ("api", remoteInfo)]).map some)) []) :=
  C3_save_load_roundTrip "hostA" "hostB"
    [("web", localInfo), ("api", remoteInfo)] (by decide)

/-- Claim C4, counterexample.  The file holds one entry named `web` with
local address `localhost:4000`; the in-memory registry holds `web` (address
`localhost:3000`) and `api`.  After `loadTunnels`: the map is completely
unchanged — the in-memory `web` took precedence over the file entry (the
file's differing address was discarded), and `api` survived although the
file has no such entry.  So `load()` does not replace the in-memory state
with the file contents. -/
theorem C4_counterexample :
    loadTunnels "thishost" (.parsed [some c4FileRec]) c4Reg = c4Reg ∧
    lookupReg (loadTunnels "thishost" (.parsed [some c4FileRec]) c4Reg)
      "api" = some localInfo ∧
    (lookupReg (loadTunnels "thishost" (.parsed [some c4FileRec]) c4Reg)
        "web").map TunnelInfo.url = some "http://localhost:3000" ∧
    c4FileRec.url = "http://localhost:4000" := by decide

/-- Claim C4, amended.  `load()` merges instead of replacing: the result is
the pre-load map followed by appended file entries, every appended entry
has a name that was absent from the pre-load map (same-named in-memory
entries take precedence over file entries), and every pre-load record
survives with its binding intact. -/
theorem C4_amended_load_merges (host : String) (f : FileContent)
    (reg : Registry) :
    ∃ ext, loadTunnels host f reg = reg ++ ext ∧
      (∀ q ∈ ext, hasName reg q.1 = false) ∧
      ∀ n, hasName reg n = true →
        lookupReg (loadTunnels host f reg) n = lookupReg reg n := by
  match f with
  | .missing => exact ⟨[], by simp [loadTunnels], by simp, fun n _ => rfl⟩
  | .unparsable => exact ⟨[], by simp [loadTunnels], by simp, fun n _ => rfl⟩
  | .parsed es =>
    obtain ⟨ext, heq, hfr⟩ := loadEntries_extends host es reg
    refine ⟨ext, heq, hfr, fun n hn => ?_⟩
    show lookupReg (loadEntries host es reg) n = _
    rw [heq]
    exact lookupReg_append_left ext hn

/-- Witness for C4 (amended), at the counterexample's file and registry. -/
theorem C4_amended_load_merges_witness :
    ∃ ext, loadTunnels "thishost" (.parsed [some c4FileRec]) c4Reg =
        c4Reg ++ ext ∧
      (∀ q ∈ ext, hasName c4Reg q.1 = false) ∧
      ∀ n, hasName c4Reg n = true →
        lookupReg (loadTunnels "thishost" (.parsed [some c4FileRec]) c4Reg) n =
          lookupReg c4Reg n :=
  C4_amended_load_merges "thishost" (.parsed [some c4FileRec]) c4Reg

/-- Claim C5.  The persisted form of any record — including one marked
`isRemote` — has its `hostId` stamped with the current hostname, is
entirely independent of the record's stored `hostId` and of its in-memory
close handle (the `PersistedTunnel` shape has no handle field at all), and
is exactly what `saveTunnels` emits for that entry. -/
theorem C5_persisted_shape (host n : String) (i : TunnelInfo)
    (h' : CloseHandle) (x : String) :
    (persistedOf host (n, i)).hostId = host ∧
    persistedOf host (n, { i with tunnel := h', hostId := x }) =
      persistedOf host (n, i) ∧
    ∀ reg : Registry, (n, i) ∈ reg →
      persistedOf host (n, i) ∈ saveTunnels host reg :=
  ⟨rfl, rfl, fun _ hmem => List.mem_map_of_mem (persistedOf host) hmem⟩

/-- Witness for C5: a remote record owned by `otherhost`, saved on `me`. -/
theorem C5_persisted_shape_witness :
    (persistedOf "me" ("web", remoteInfo)).hostId = "me" ∧
    persistedOf "me" ("web",
        { remoteInfo with tunnel := .fromStart "x", hostId := "bogus" }) =
      persistedOf "me" ("web", remoteInfo) ∧
    persistedOf "me" ("web", remoteInfo) ∈
      saveTunnels "me" [("web", remoteInfo)] :=
  ⟨(C5_persisted_shape "me" "web" remoteInfo (.fromStart "x") "bogus").1,
   (C5_persisted_shape "me" "web" remoteInfo (.fromStart "x") "bogus").2.1,
   (C5_persisted_shape "me" "web" remoteInfo (.fromStart "x") "bogus").2.2
     [("web", remoteInfo)] (List.mem_singleton.mpr rfl)⟩

/-- Claim C6.  A process whose command line carries the `--token`
authentication marker is excluded from the bulk reaper's tunnel-binary
passes: it is never in the initial graceful (TERM) target set, never in the
escalation (KILL) set — which only re-checks members of the first — and
never in the final-check enumeration. -/
theorem C6_token_excluded (snap : Nat → ProcTable) (pr : Proc)
    (htok : containsStr pr.command "--token" = true) :
    pr ∉ (killTunnelProcesses snap).cfTerm ∧
    pr ∉ (killTunnelProcesses snap).cfKill ∧
    pr ∉ (killTunnelProcesses snap).finalCheck := by
  have hu := token_not_untunCf htok
  refine ⟨?_, ?_, ?_⟩ <;> intro hmem
  · simp only [killTunnelProcesses, List.mem_filter] at hmem
    rw [hu] at hmem
    exact Bool.false_ne_true hmem.2
  · simp only [killTunnelProcesses] at hmem
    split at hmem
    · exact (List.not_mem_nil pr) hmem
    · have h1 := (List.mem_filter.mp hmem).1
      have h2 := (List.mem_filter.mp h1).2
      rw [hu] at h2
      exact Bool.false_ne_true h2
  · simp only [killTunnelProcesses, List.mem_filter] at hmem
    rw [hu] at hmem
    exact Bool.false_ne_true hmem.2

/-- Witness for C6: a table holding a token-bearing cloudflared process. -/
theorem C6_token_excluded_witness :
    tokenProc ∉ (killTunnelProcesses bulkSnap).cfTerm ∧
    tokenProc ∉ (killTunnelProcesses bulkSnap).cfKill ∧
    tokenProc ∉ (killTunnelProcesses bulkSnap).finalCheck :=
  C6_token_excluded bulkSnap tokenProc (by decide)

/-- Claim C7, counterexample.  The registry holds a record named
`auto-detected-1` (address `localhost:3000`, persisted by an earlier
invocation); the process table shows one live cloudflared process exposing
`localhost:4000`, which matches no record's url.  The reconciliation pass
names the new tunnel `auto-detected-1` again — numbering restarts at 1 on
every invocation — and `activeTunnels.set` *overwrites* the existing
record: afterwards the registry still has a single entry and the old
record is gone, so the generated name was not unique and an existing
record was destroyed by the synthesis. -/
theorem C7_counterexample :
    listTunnelsUpdate "thishost" 9 .missing c7Table c7Reg =
      [("auto-detected-1", recordOfDetected "thishost" 9 c7Detected)] ∧
    lookupReg (listTunnelsUpdate "thishost" 9 .missing c7Table c7Reg)
        "auto-detected-1" ≠ some c7OldRec ∧
    (c7Reg.any (fun p => p.2.url == c7Detected.url)) = false := by decide

/-- Claim C7, amended.  The generated names are unique only within one
invocation: the record at position `i` of the detected array is named
`auto-detected-(i+1)`.  For a detected tunnel whose local address matches
no record, a record with the current hostname and `isDetected = true` is
synthesized, and it is appended — overwriting nothing — *provided* the
generated name is also absent from the registry; names persisted by
earlier invocations can collide and are then overwritten (see the
counterexample). -/
theorem C7_amended_detection (host : String) (now : Int) (table : ProcTable)
    (reg : Registry) (t : Detected)
    (hurl : reg.any (fun p => p.2.url == t.url) = false)
    (hname : hasName reg t.name = false) :
    autoNamed (detectTunnels table) ∧
    absorbDetected host now reg t =
      reg ++ [(t.name, recordOfDetected host now t)] ∧
    (recordOfDetected host now t).isDetected = true ∧
    (recordOfDetected host now t).hostId = host := by
  refine ⟨?_, ?_, rfl, rfl⟩
  · unfold detectTunnels detectUntun detectCloudflared
    apply autoNamed_foldl_untun
    apply autoNamed_foldl_cf
    intro i h
    exact absurd h (Nat.not_lt_zero i)
  · have hfind : reg.find? (fun p => p.2.url == t.url) = none := by
      rw [List.find?_eq_none]
      intro x hx
      simp only [List.any_eq_false] at hurl
      exact hurl x hx
    simp [absorbDetected, hfind, setName, hname]

/-- Witness for C7 (amended): the detected `localhost:4000` tunnel absorbed
into a registry whose only record has a different url and name. -/
theorem C7_amended_detection_witness :
    autoNamed (detectTunnels c7Table) ∧
    absorbDetected "thishost" 9 [("web", localInfo)] c7Detected =
      [("web", localInfo)] ++
        [(c7Detected.name, recordOfDetected "thishost" 9 c7Detected)] ∧
    (recordOfDetected "thishost" 9 c7Detected).isDetected = true ∧
    (recordOfDetected "thishost" 9 c7Detected).hostId = "thishost" :=
  C7_amended_detection "thishost" 9 c7Table [("web", localInfo)] c7Detected
    (by decide) (by decide)

/-- Claim C8.  `loadTunnels` degrades safely on bad storage: a missing
registry file leaves the in-memory map exactly as it was (an empty map
stays empty) and is not an error, and an unparsable file rejects the whole
load before any mutation, leaving the prior in-memory state untouched.
Totality of `loadTunnels` models the surrounding try/catch: every failure
is swallowed (logged in the source) and nothing propagates to the caller. -/
theorem C8_load_degrades_safely (host : String) (reg : Registry) :
    loadTunnels host .missing reg = reg ∧
    loadTunnels host .unparsable reg = reg ∧
    loadTunnels host .missing ([] : Registry) = [] :=
  ⟨rfl, rfl, rfl⟩

/-- Claim C9.  `stop_tunnel` on a name absent from the registry returns the
"not found" reply without touching the registry and without any process
call, and a second call on the same still-absent name is identical: same
reply, same (unchanged) registry, no signals — the operation is idempotent
and never raises. -/
theorem C9_stop_missing_idempotent (snap : Nat → ProcTable) (reg : Registry)
    (n : String) (h : hasName reg n = false) :
    (stopTunnelTool snap reg (some n)).reply =
      "No active tunnel found with name \"" ++ n ++ "\"." ∧
    (stopTunnelTool snap reg (some n)).registry = reg ∧
    (stopTunnelTool snap reg (some n)).closeCalls = [] ∧
    (stopTunnelTool snap reg (some n)).bulk = none ∧
    stopTunnelTool snap (stopTunnelTool snap reg (some n)).registry (some n) =
      stopTunnelTool snap reg (some n) := by
  have hl := lookup_of_hasName_false h
  simp [stopTunnelTool, hl]

/-- Witness for C9: the name `ghost` against a registry holding only
`web`. -/
theorem C9_stop_missing_idempotent_witness :
    (stopTunnelTool bulkSnap [("web", remoteInfo)] (some "ghost")).reply =
      "No active tunnel found with name \"" ++ "ghost" ++ "\"." ∧
    (stopTunnelTool bulkSnap [("web", remoteInfo)] (some "ghost")).registry =
      [("web", remoteInfo)] ∧
    (stopTunnelTool bulkSnap [("web", remoteInfo)] (some "ghost")).closeCalls =
      [] ∧
    (stopTunnelTool bulkSnap [("web", remoteInfo)] (some "ghost")).bulk =
      none ∧
    stopTunnelTool bulkSnap
        (stopTunnelTool bulkSnap [("web", remoteInfo)]
          (some "ghost")).registry (some "ghost") =
      stopTunnelTool bulkSnap [("web", remoteInfo)] (some "ghost") :=
  C9_stop_missing_idempotent bulkSnap [("web", remoteInfo)] "ghost" (by decide)

/-- Claim C10.  In the no-name branch of `stop_tunnel`, the bulk reaper runs
unconditionally before the local-record count is examined: even when every
registry record is remote (zero local records), the returned result carries
the full `killTunnelProcesses` run — the signals were already sent — while
the reply is the fixed string "No local tunnels to stop. Remote tunnels are
not affected.", which is independent of the process table and carries no
kill transcript; the registry is left unchanged. -/
theorem C10_bulk_kill_before_count (snap : Nat → ProcTable) (reg : Registry)
    (h : (reg.filter (fun p => !p.2.isRemote)).length = 0) :
    (stopTunnelTool snap reg none).bulk = some (killTunnelProcesses snap) ∧
    (stopTunnelTool snap reg none).reply =
      "No local tunnels to stop. Remote tunnels are not affected." ∧
    (stopTunnelTool snap reg none).registry = reg := by
  simp [stopTunnelTool, h]

/-- Witness for C10: a remote-only registry over a table with a live
untun-managed cloudflared process — the reaper result it carries has a
non-empty TERM target set even though the reply says there was nothing to
stop. -/
theorem C10_bulk_kill_before_count_witness :
    (stopTunnelTool bulkSnap [("web", remoteInfo)] none).bulk =
      some (killTunnelProcesses bulkSnap) ∧
    (stopTunnelTool bulkSnap [("web", remoteInfo)] none).reply =
      "No local tunnels to stop. Remote tunnels are not affected." ∧
    (stopTunnelTool bulkSnap [("web", remoteInfo)] none).registry =
      [("web", remoteInfo)] :=
  C10_bulk_kill_before_count bulkSnap [("web", remoteInfo)] (by decide)
